import Mathlib

/-!
# Verification of `textual-sqlite` (`src/sql.py`)

A shallow embedding of the `SQLite` widget class from `src/sql.py`.

The class wraps Python's `sqlite3` module.  The embedding models:

* the SQLite *engine* (an external collaborator) semantically: a database is
  a list of tables, each table a list of rows keyed by rowid; the statements
  the wrapper constructs (`CREATE TABLE IF NOT EXISTS`, `INSERT`, `DELETE`,
  `UPDATE`, read queries) are given their engine semantics as pure functions
  `Database → Except String Database`;
* the `sqlite3.Connection` as a record of the committed database state, the
  pending (current-transaction) state visible to the connection's own
  cursors, the number of open cursors, a closed flag, and the list of SQL
  statement texts issued to the engine (for observability of "reaches the
  engine" claims);
* each method of the `SQLite` class as a state-passing function
  `Conn → Conn × Except SqlError α`, mirroring the source line by line:
  `try`/`except sqlite3.DatabaseError`/`rollback`/`raise` becomes
  `tryRollback`, the `@contextmanager _cursor` (acquire, `try: yield`,
  `finally: close`) becomes `withCursor`;
* first-run provisioning (`__init__` / `get_user_db` / `initialize_db`) over
  a model filesystem mapping paths to database file contents, where
  `sqlite3.connect` creates an empty database file when none exists.
-/

deriving instance DecidableEq for Except

/-- A SQLite scalar value bound to a `?` placeholder or stored in a row. -/
inductive Value where
  | intV (n : Int)
  | textV (s : String)
  | nullV
deriving DecidableEq, Repr

/-- A row as returned by `cursor.fetchall` / `fetchone`: an ordered tuple of
column values. -/
abbrev Row := List Value

/-- One table of the database: its name, ordered column names, rows stored as
(rowid, values aligned with `cols`), and the next rowid to assign. -/
structure Table where
  name : String
  cols : List String
  rows : List (Nat × Row)
  nextId : Nat
deriving DecidableEq, Repr

/-- A database file's logical contents: its tables. -/
abbrev Database := List Table

/-- Look up a table by name (engine name resolution): the first table whose
name matches. -/
def Database.getTable : Database → String → Option Table
  | [], _ => none
  | t :: rest, name => if t.name = name then some t else getTable rest name

/-- Replace the contents of every table carrying the given name (engine
applying a mutation to the named table; names are unique in a real
database). -/
def Database.modifyTable : Database → String → (Table → Table) → Database
  | [], _, _ => []
  | t :: rest, name, f =>
    if t.name = name then f t :: modifyTable rest name f
    else t :: modifyTable rest name f

/-- The value a row holds in a named column, `none` if the column does not
exist. -/
def colValue (cols : List String) (row : Row) (c : String) : Option Value :=
  (cols.indexOf? c).map (fun i => row.getD i .nullV)

/-- Engine semantics of `CREATE TABLE IF NOT EXISTS t (c1 d1, ...)`:
a no-op when the table exists, otherwise appends a fresh empty table. -/
def createTableSem (table : String) (columns : List (String × String))
    (db : Database) : Except String Database :=
  match db.getTable table with
  | some _ => .ok db
  | none => .ok (db ++ [⟨table, columns.map Prod.fst, [], 1⟩])

/-- Engine semantics of `INSERT INTO t (c1, ...) VALUES (?, ...)` with the
placeholder count equal to `vals.length` (as built by `insert_one`) and the
parameters bound to `vals`.  The engine rejects an unknown table, a
values/columns count mismatch (`N values for M columns`), and an unknown
column; otherwise it appends one row, storing under each table column the
bound value of the matching insert column, `NULL` for unmentioned columns. -/
def insertSem (table : String) (columns : List String) (vals : List Value)
    (db : Database) : Except String Database :=
  match db.getTable table with
  | none => .error ("no such table: " ++ table)
  | some t =>
    if vals.length ≠ columns.length then
      .error (toString vals.length ++ " values for " ++
        toString columns.length ++ " columns")
    else if columns.any (fun c => ¬ t.cols.contains c) then
      .error ("table " ++ table ++ " has no column")
    else
      let row : Row := t.cols.map (fun c =>
        ((columns.zip vals).lookup c).getD .nullV)
      .ok (db.modifyTable table (fun t =>
        { t with rows := t.rows ++ [(t.nextId, row)], nextId := t.nextId + 1 }))

/-- Engine semantics of `DELETE FROM t WHERE c = ?` with the parameter bound
to `v`. -/
def deleteSem (table : String) (column : String) (v : Value)
    (db : Database) : Except String Database :=
  match db.getTable table with
  | none => .error ("no such table: " ++ table)
  | some t =>
    if ¬ t.cols.contains column then
      .error ("no such column: " ++ column)
    else
      .ok (db.modifyTable table (fun t =>
        { t with rows := (t.rows.filter
            (fun r => colValue t.cols r.2 column ≠ some v)) }))

/-- Engine semantics of `UPDATE t SET c = ? WHERE cc = ?` with parameters
bound to `(newV, condV)`. -/
def updateSem (table : String) (column : String) (newV : Value)
    (condColumn : String) (condV : Value) (db : Database) :
    Except String Database :=
  match db.getTable table with
  | none => .error ("no such table: " ++ table)
  | some t =>
    if ¬ t.cols.contains column ∨ ¬ t.cols.contains condColumn then
      .error "no such column"
    else
      .ok (db.modifyTable table (fun t =>
        { t with rows := (t.rows.map (fun r =>
            if colValue t.cols r.2 condColumn = some condV then
              (r.1, t.cols.map (fun c =>
                if c = column then newV else (colValue t.cols r.2 c).getD .nullV))
            else r)) }))

/-- The read queries passed as SQL text to `fetchall` / `fetchone`, in the
structured form the engine parses them to.  `selectByRowid` is
`SELECT * FROM t WHERE rowid = ?`. -/
inductive Query where
  | selectAll (table : String)
  | selectWhereEq (table : String) (col : String)
  | selectByRowid (table : String)
deriving DecidableEq, Repr

/-- The SQL text of a read query (what `fetchall` / `fetchone` hand to
`cursor.execute`). -/
def Query.sql : Query → String
  | .selectAll t => "SELECT * FROM " ++ t
  | .selectWhereEq t c => "SELECT * FROM " ++ t ++ " WHERE " ++ c ++ " = ?"
  | .selectByRowid t => "SELECT * FROM " ++ t ++ " WHERE rowid = ?"

/-- Engine semantics of executing a read query with positional parameters
against the connection's current (pending) view: the matching rows in table
order, or an engine error (unknown table, wrong binding count). -/
def runQuery (q : Query) (params : List Value) (db : Database) :
    Except String (List Row) :=
  match q with
  | .selectAll table =>
    match db.getTable table with
    | none => .error ("no such table: " ++ table)
    | some t =>
      if params.length ≠ 0 then .error "Incorrect number of bindings supplied"
      else .ok (t.rows.map Prod.snd)
  | .selectWhereEq table col =>
    match db.getTable table with
    | none => .error ("no such table: " ++ table)
    | some t =>
      if params.length = 1 then
        if ¬ t.cols.contains col then .error ("no such column: " ++ col)
        else .ok ((t.rows.filter
          (fun r => colValue t.cols r.2 col = some (params.getD 0 .nullV))).map
            Prod.snd)
      else .error "Incorrect number of bindings supplied"
  | .selectByRowid table =>
    match db.getTable table with
    | none => .error ("no such table: " ++ table)
    | some t =>
      if params.length = 1 then
        match params.getD 0 .nullV with
        | .intV n => .ok ((t.rows.filter (fun r => (r.1 : Int) = n)).map Prod.snd)
        | _ => .ok []
      else .error "Incorrect number of bindings supplied"

/-- The errors the wrapper can propagate.  `databaseError` and
`programmingClosed` model the CPython `sqlite3` exceptions the source can
actually raise (`sqlite3.ProgrammingError: Cannot operate on a closed
database` is itself a subclass of `sqlite3.DatabaseError`, so
`except sqlite3.DatabaseError` catches both).  `executorClosed` and
`parameterCountMismatch` are modelled from the spec: its error taxonomy names
`ExecutorClosed` and `ParameterCountMismatch`, but no code in `src/sql.py`
defines or raises them; they are present only so theorems can compare the
code's observable errors against the spec's taxonomy. -/
inductive SqlError where
  | databaseError (msg : String)
  | programmingClosed
  | executorClosed
  | parameterCountMismatch
deriving DecidableEq, Repr

/-- The state of the `sqlite3.Connection` owned by the widget: the committed
database (what the file durably holds), the pending view of the current
transaction (what this connection's cursors read and statements mutate), the
number of currently open cursors, whether `close()` was called, and the texts
of all statements issued to the engine (observability for "reaches the
engine" / "no engine access" claims). -/
structure Conn where
  committed : Database
  pending : Database
  openCursors : Nat
  closed : Bool
  issued : List String
deriving DecidableEq, Repr

/-- `self.connection.cursor()`: fails with `ProgrammingError` on a closed
connection, otherwise opens one more cursor. -/
def Conn.cursor (c : Conn) : Conn × Except SqlError Unit :=
  if c.closed then (c, .error .programmingClosed)
  else ({ c with openCursors := c.openCursors + 1 }, .ok ())

/-- `cursor.close()`. -/
def Conn.closeCursor (c : Conn) : Conn :=
  { c with openCursors := c.openCursors - 1 }

/-- `self.connection.commit()`: makes the pending transaction durable. -/
def Conn.commit (c : Conn) : Conn × Except SqlError Unit :=
  if c.closed then (c, .error .programmingClosed)
  else ({ c with committed := c.pending }, .ok ())

/-- `self.connection.rollback()`: discards the pending transaction. -/
def Conn.rollback (c : Conn) : Conn × Except SqlError Unit :=
  if c.closed then (c, .error .programmingClosed)
  else ({ c with pending := c.committed }, .ok ())

/-- `cursor.execute(sql, params)` for a mutating statement: the statement text
is handed to the engine (recorded in `issued`), which applies its semantics to
the pending view or rejects it with a `DatabaseError`. -/
def Conn.execute (c : Conn) (sql : String)
    (sem : Database → Except String Database) : Conn × Except SqlError Unit :=
  let c := { c with issued := c.issued ++ [sql] }
  match sem c.pending with
  | .ok db => ({ c with pending := db }, .ok ())
  | .error m => (c, .error (.databaseError m))

/-- `cursor.execute(query, params)` followed by fetching the result rows of a
read query. -/
def Conn.executeQuery (c : Conn) (q : Query) (params : List Value) :
    Conn × Except SqlError (List Row) :=
  let c := { c with issued := c.issued ++ [q.sql] }
  match runQuery q params c.pending with
  | .ok rows => (c, .ok rows)
  | .error m => (c, .error (.databaseError m))

/-- A SQL script as passed to `cursor.executescript`: its text and its
statements, each given by its engine semantics
(`Database → Except String Database`), to be executed one at a time. -/
structure Script where
  text : String
  stmts : List (Database → Except String Database)

/-- Running a script's statements one at a time in autocommit mode: each
successful statement's effect is durable at once; the first failing statement
stops execution, leaving the effects of the already-executed prefix in place
and reporting that statement's engine error. -/
def runStmts : List (Database → Except String Database) → Database →
    Database × Option String
  | [], db => (db, none)
  | f :: fs, db =>
    match f db with
    | .ok db2 => runStmts fs db2
    | .error m => (db, some m)

/-- `cursor.executescript(script)`: per the `sqlite3` docs an implicit COMMIT
of any pending transaction is executed first and no other transaction control
is performed, so the script's statements then run one at a time in autocommit
mode — a script failing at statement k leaves statements 1..k-1 durably
committed — and the first failure raises `sqlite3.DatabaseError`. -/
def Conn.executescript (c : Conn) (s : Script) : Conn × Except SqlError Unit :=
  if c.closed then (c, .error .programmingClosed)
  else
    let c := { c with committed := c.pending, issued := c.issued ++ [s.text] }
    match runStmts s.stmts c.pending with
    | (db, none) => ({ c with pending := db, committed := db }, .ok ())
    | (db, some m) =>
      ({ c with pending := db, committed := db }, .error (.databaseError m))

/-- The `@contextmanager _cursor` (src/sql.py lines 78-85): acquire a cursor
from the connection (this happens before the `try`, so an acquisition failure
propagates without a cursor to close), run the body, and close the cursor in
`finally` — on the normal exit and on the error exit alike. -/
def withCursor (c : Conn) (body : Conn → Conn × Except SqlError α) :
    Conn × Except SqlError α :=
  match c.cursor with
  | (c, .error e) => (c, .error e)
  | (c, .ok _) =>
    let (c, r) := body c
    (c.closeCursor, r)

/-- The `try: ... except sqlite3.DatabaseError as e: self.connection.rollback();
raise e` pattern shared by the five mutating methods.  If the rollback itself
raises (closed connection), that exception propagates instead. -/
def tryRollback (c : Conn) (body : Conn → Conn × Except SqlError α) :
    Conn × Except SqlError α :=
  match body c with
  | (c, .ok a) => (c, .ok a)
  | (c, .error e) =>
    match c.rollback with
    | (c, .ok _) => (c, .error e)
    | (c, .error e2) => (c, .error e2)

namespace SQLite

/-- `SQLite.execute_script` (src/sql.py lines 87-104): run the script through
a scoped cursor, then commit (after the cursor is closed, still inside the
`try`); on `sqlite3.DatabaseError` roll back and re-raise. -/
def execute_script (c : Conn) (script : Script) : Conn × Except SqlError Unit :=
  tryRollback c (fun c =>
    match withCursor c (fun c => c.executescript script) with
    | (c, .error e) => (c, .error e)
    | (c, .ok _) => c.commit)

/-- `SQLite.create_table` (src/sql.py lines 107-140): builds
`CREATE TABLE IF NOT EXISTS {table} ({columns_str});` and runs it through the
scoped-cursor / commit / rollback-on-error discipline. -/
def create_table (c : Conn) (table : String) (columns : List (String × String)) :
    Conn × Except SqlError Unit :=
  let columns_str := String.intercalate ", "
    (columns.map (fun kv => kv.1 ++ " " ++ kv.2))
  let query := "CREATE TABLE IF NOT EXISTS " ++ table ++ " (" ++ columns_str ++ ");"
  tryRollback c (fun c =>
    match withCursor c (fun c => c.execute query (createTableSem table columns)) with
    | (c, .error e) => (c, .error e)
    | (c, .ok _) => c.commit)

/-- `SQLite.insert_one` (src/sql.py lines 142-176): builds
`INSERT INTO {table} ({columns}) VALUES ({placeholders})` with one `?` per
element of `values` (no length check against `columns`), executes it, and —
still inside the cursor scope — commits when `auto_commit` is true (the
source's default); on `sqlite3.DatabaseError` rolls back and re-raises. -/
def insert_one (c : Conn) (table : String) (columns : List String)
    (values : List Value) (auto_commit : Bool) : Conn × Except SqlError Unit :=
  let placeholders := String.intercalate ", " (List.replicate values.length "?")
  let query := "INSERT INTO " ++ table ++ " (" ++ String.intercalate ", " columns
    ++ ") VALUES (" ++ placeholders ++ ")"
  tryRollback c (fun c =>
    withCursor c (fun c =>
      match c.execute query (insertSem table columns values) with
      | (c, .error e) => (c, .error e)
      | (c, .ok _) => if auto_commit then c.commit else (c, .ok ())))

/-- `SQLite.delete_one` (src/sql.py lines 179-205): builds
`DELETE FROM {table_name} WHERE {column_name} = ?;` and runs it through the
scoped-cursor / commit / rollback-on-error discipline. -/
def delete_one (c : Conn) (table_name : String) (column_name : String)
    (value : Value) : Conn × Except SqlError Unit :=
  let query := "DELETE FROM " ++ table_name ++ " WHERE " ++ column_name ++ " = ?;"
  tryRollback c (fun c =>
    match withCursor c (fun c => c.execute query (deleteSem table_name column_name value)) with
    | (c, .error e) => (c, .error e)
    | (c, .ok _) => c.commit)

/-- `SQLite.update_column` (src/sql.py lines 207-244): builds
`UPDATE {table_name} SET {column_name} = ? WHERE {condition_column} = ?;` and
runs it through the scoped-cursor / commit / rollback-on-error discipline. -/
def update_column (c : Conn) (table_name : String) (column_name : String)
    (new_value : Value) (condition_column : String) (condition_value : Value) :
    Conn × Except SqlError Unit :=
  let query := "UPDATE " ++ table_name ++ " SET " ++ column_name ++
    " = ? WHERE " ++ condition_column ++ " = ?;"
  tryRollback c (fun c =>
    match withCursor c (fun c =>
        c.execute query (updateSem table_name column_name new_value
          condition_column condition_value)) with
    | (c, .error e) => (c, .error e)
    | (c, .ok _) => c.commit)

/-- `SQLite.fetchall` (src/sql.py lines 247-271): executes the query through a
scoped cursor and returns all rows.  There is no reachable `try`/`except` —
the `try: pass / except: raise` block sits after the `return` statement and is
dead code — so errors propagate with no rollback and no commit. -/
def fetchall (c : Conn) (query : Query) (params : List Value) :
    Conn × Except SqlError (List Row) :=
  withCursor c (fun c => c.executeQuery query params)

/-- `SQLite.fetchone` (src/sql.py lines 273-293): like `fetchall` but returns
`cursor.fetchone()` — the first result row, or Python `None` (here
`Option.none`) when the query matched no row.  No `try`/`except`, no commit,
no rollback. -/
def fetchone (c : Conn) (query : Query) (params : List Value) :
    Conn × Except SqlError (Option Row) :=
  withCursor c (fun c =>
    match c.executeQuery query params with
    | (c, .error e) => (c, .error e)
    | (c, .ok rows) => (c, .ok rows.head?))

/-- `SQLite.close` (src/sql.py lines 296-298): `self.connection.close()`.  Per
the `sqlite3` docs, closing without committing discards pending changes. -/
def close (c : Conn) : Conn :=
  { c with closed := true, pending := c.committed }

end SQLite

/-- The model filesystem: database files by path (an association list). -/
structure FS where
  files : List (String × Database)
deriving DecidableEq

/-- `Path.exists()` on the model filesystem. -/
def FS.pathExists (fs : FS) (p : String) : Bool :=
  (fs.files.lookup p).isSome

/-- Store `db` as the contents of the file at `p` (creating it if absent).
The association list is read through `lookup`, so the new binding shadows any
old one. -/
def FS.write (fs : FS) (p : String) (db : Database) : FS :=
  ⟨(p, db) :: fs.files⟩

/-- `sqlite3.connect(path)`: opens the database file at `path`; when no file
exists there, the engine creates an empty database file on connect. -/
def sqlite3_connect (fs : FS) (p : String) : FS × Conn :=
  match fs.files.lookup p with
  | some db => (fs, ⟨db, db, 0, false, []⟩)
  | none => (fs.write p [], ⟨[], [], 0, false, []⟩)

/-- `SQLite.get_user_db` (src/sql.py lines 63-68): the per-user database path,
the platform data directory joined with the database file name.  The
`platformdirs.user_data_dir` resolution is an external collaborator; the
resolved directory is an input. -/
def get_user_db (data_dir : String) (db_filename : String) : String :=
  data_dir ++ "/" ++ db_filename

/-- The `db_filename or f"{app_name}.db"` default applied in `__init__`
(src/sql.py line 54). -/
def defaultDbFilename (app_name : String) (db_filename : Option String) : String :=
  db_filename.getD (app_name ++ ".db")

/-- The outcome of constructing `SQLite(...)`: the filesystem afterwards, the
live connection when construction succeeded (`none` when `__init__` raised),
whether `initialize_db` ran (i.e. the SQL script file was read and executed),
and the propagated error if any. -/
structure InitResult where
  fs : FS
  conn : Option Conn
  ranScript : Bool
  err : Option SqlError

/-- `SQLite.__init__` provisioning (src/sql.py lines 56-61) together with
`initialize_db` (lines 70-76): if no file exists at `path`, connect (which
creates the file), read the bundled script (an external resource read,
modelled by the given `Script`) and run it via `execute_script`; if the file
exists, just connect.  The engine persists committed transactions to the
file; the model writes the connection's committed state back to the file when
construction ends (also when it ends by raising). -/
def SQLite.init (fs : FS) (path : String) (script : Script) : InitResult :=
  if fs.pathExists path then
    let (fs, conn) := sqlite3_connect fs path
    ⟨fs, some conn, false, none⟩
  else
    let (fs, conn) := sqlite3_connect fs path
    match SQLite.execute_script conn script with
    | (conn, .ok _) => ⟨fs.write path conn.committed, some conn, true, none⟩
    | (conn, .error e) => ⟨fs.write path conn.committed, none, true, some e⟩

/-! ## Concrete fixtures -/

/-- A table `users(name, age)` with no rows yet. -/
def usersTable : Table := ⟨"users", ["name", "age"], [], 1⟩

/-- A one-table database. -/
def db0 : Database := [usersTable]

/-- An open connection on `db0` with no pending changes. -/
def conn0 : Conn := ⟨db0, db0, 0, false, []⟩

/-- `conn0` with one row staged in the transaction but not committed
(obtained with `auto_commit=False`). -/
def stagedConn : Conn :=
  ⟨db0, [⟨"users", ["name", "age"], [(1, [Value.textV "Alice", Value.intV 30])], 2⟩],
    0, false, []⟩

/-- A valid one-statement initialization script creating the `users` table. -/
def goodScript : Script :=
  ⟨"CREATE TABLE users (name, age);",
    [fun db => createTableSem "users" [("name", "TEXT"), ("age", "INTEGER")] db]⟩

/-- A script whose single statement the engine rejects (invalid SQL): it
fails with no effect. -/
def badScript : Script :=
  ⟨"CREATE TABLEE users;", [fun _ => .error "SQL script error"]⟩

/-- A script whose first statement succeeds (inserting a row into `users`)
and whose second statement is invalid SQL: it fails midway. -/
def partialScript : Script :=
  ⟨"INSERT INTO users (name, age) VALUES ('Bob', 1); CREATE TABLEE oops;",
    [fun db => insertSem "users" ["name", "age"]
      [Value.textV "Bob", Value.intV 1] db,
     fun _ => .error "SQL script error"]⟩

/-- A filesystem already holding a provisioned database file. -/
def fs0 : FS := ⟨[("/data/app/users.db", db0)]⟩

/-- An empty filesystem: no database file provisioned yet. -/
def fsEmpty : FS := ⟨[]⟩

/-! ## Helper lemmas -/

theorem FS.lookup_write (fs : FS) (p : String) (db : Database) :
    ((fs.write p db).files.lookup p) = some db := by
  simp [FS.write, List.lookup]

theorem FS.pathExists_write (fs : FS) (p : String) (db : Database) :
    (fs.write p db).pathExists p = true := by
  simp [FS.pathExists, FS.lookup_write]

/-- When the database file already exists, `__init__` only connects: the
filesystem is untouched, `initialize_db` is not called, no error is raised,
and the connection opens on the file's current contents. -/
theorem init_of_pathExists (fs : FS) (path : String) (script : Script)
    (h : fs.pathExists path = true) :
    (SQLite.init fs path script).fs = fs ∧
    (SQLite.init fs path script).ranScript = false ∧
    (SQLite.init fs path script).err = none := by
  have h' : (fs.files.lookup path).isSome = true := by
    simpa only [FS.pathExists] using h
  obtain ⟨db, hdb⟩ := Option.isSome_iff_exists.mp h'
  simp [SQLite.init, h, sqlite3_connect, hdb]

/-- Full run of the statement-then-commit shape shared by `create_table`,
`delete_one` and `update_column` on an open connection: on engine success the
mutation is committed, on engine failure the transaction is rolled back and
the `DatabaseError` propagates; either way the statement text reached the
engine and the cursor is balanced. -/
theorem stmtCommit_run (c : Conn) (q : String)
    (sem : Database → Except String Database) (hc : c.closed = false) :
    (tryRollback c (fun c =>
      match withCursor c (fun c => c.execute q sem) with
      | (c, .error e) => (c, .error e)
      | (c, .ok _) => c.commit)) =
    match sem c.pending with
    | .ok db => ({ c with issued := c.issued ++ [q], pending := db, committed := db }, .ok ())
    | .error m => ({ c with issued := c.issued ++ [q], pending := c.committed }, .error (.databaseError m)) := by
  cases hsem : sem c.pending <;>
    simp [tryRollback, withCursor, Conn.cursor, Conn.execute, Conn.closeCursor,
      Conn.commit, Conn.rollback, hc, hsem]

/-- Full run of `insert_one`'s body shape on an open connection (commit inside
the cursor scope, governed by `auto_commit`). -/
theorem insertShape_run (c : Conn) (q : String)
    (sem : Database → Except String Database) (ac : Bool) (hc : c.closed = false) :
    (tryRollback c (fun c =>
      withCursor c (fun c =>
        match c.execute q sem with
        | (c, .error e) => (c, .error e)
        | (c, .ok _) => if ac then c.commit else (c, .ok ())))) =
    match sem c.pending with
    | .ok db =>
      if ac then
        ({ c with issued := c.issued ++ [q], pending := db, committed := db }, .ok ())
      else
        ({ c with issued := c.issued ++ [q], pending := db }, .ok ())
    | .error m => ({ c with issued := c.issued ++ [q], pending := c.committed }, .error (.databaseError m)) := by
  cases hsem : sem c.pending <;> cases ac <;>
    simp [tryRollback, withCursor, Conn.cursor, Conn.execute, Conn.closeCursor,
      Conn.commit, Conn.rollback, hc, hsem]

/-- Full run of `execute_script` on an open connection: `executescript` first
commits any pending transaction implicitly, then runs the script's statements
one at a time in autocommit mode.  Whether the script completes or fails
midway, the executed prefix's effects are durably committed (pending equals
committed afterwards); the first failure propagates as a `DatabaseError`, and
the rollback attempted by the `except` clause is a no-op. -/
theorem execute_script_run (c : Conn) (s : Script) (hc : c.closed = false) :
    SQLite.execute_script c s =
    ({ c with
        issued := c.issued ++ [s.text],
        pending := (runStmts s.stmts c.pending).1,
        committed := (runStmts s.stmts c.pending).1 },
      match (runStmts s.stmts c.pending).2 with
      | none => .ok ()
      | some m => .error (.databaseError m)) := by
  rcases hr : runStmts s.stmts c.pending with ⟨db, err⟩
  cases err <;>
    simp [SQLite.execute_script, tryRollback, withCursor, Conn.cursor,
      Conn.executescript, Conn.closeCursor, Conn.commit, Conn.rollback, hc, hr]

/-- Mutating the named table commutes with name lookup when the mutation
preserves the table's name. -/
theorem getTable_modifyTable (db : Database) (name : String) (f : Table → Table)
    (hf : ∀ t, (f t).name = t.name) :
    (db.modifyTable name f).getTable name = (db.getTable name).map f := by
  induction db with
  | nil => rfl
  | cons t rest ih =>
    by_cases h : t.name = name
    · simp [Database.modifyTable, Database.getTable, h, hf]
    · simp [Database.modifyTable, Database.getTable, h, hf, ih]

/-- Reading every column of an inserted row back through the zip-lookup used
by `insertSem` reproduces the inserted values, provided the column names are
distinct and the value list has matching length. -/
theorem map_lookup_zip (cols : List String) (vals : List Value)
    (hnd : cols.Nodup) (hlen : vals.length = cols.length) :
    cols.map (fun cn => (((cols.zip vals).lookup cn)).getD Value.nullV) = vals := by
  induction cols generalizing vals with
  | nil =>
    cases vals with
    | nil => rfl
    | cons v vs => simp at hlen
  | cons c cs ih =>
    cases vals with
    | nil => simp at hlen
    | cons v vs =>
      have hnotmem : c ∉ cs := (List.nodup_cons.mp hnd).1
      have hndcs : cs.Nodup := (List.nodup_cons.mp hnd).2
      have hlen' : vs.length = cs.length := by simpa using hlen
      simp only [List.zip_cons_cons, List.map_cons, List.lookup_cons_self,
        Option.getD_some, List.cons.injEq, true_and]
      calc cs.map (fun cn => ((((c, v) :: cs.zip vs).lookup cn)).getD Value.nullV)
          = cs.map (fun cn => (((cs.zip vs).lookup cn)).getD Value.nullV) := by
            refine List.map_congr_left (fun cn hcn => ?_)
            have hne : (cn == c) = false :=
              beq_eq_false_iff_ne.mpr (fun hEq => hnotmem (hEq ▸ hcn))
            simp [List.lookup, hne]
        _ = vs := ih vs hndcs hlen'

/-! ## Claims -/

/-- C1: Provisioning is idempotent.  For every construction of the store
where the database file at the store location already exists, `__init__`
takes the `else` branch: the initialization script is never read or executed
(`initialize_db` does not run) and the filesystem — in particular the
existing file's contents — is left unchanged; no error is raised. -/
theorem C1_provisioning_idempotent (fs : FS) (path : String) (script : Script)
    (h : fs.pathExists path = true) :
    (SQLite.init fs path script).fs = fs ∧
    (SQLite.init fs path script).ranScript = false ∧
    (SQLite.init fs path script).err = none :=
  init_of_pathExists fs path script h

theorem C1_provisioning_idempotent_witness :
    fs0.pathExists "/data/app/users.db" = true ∧
    ((SQLite.init fs0 "/data/app/users.db" goodScript).fs = fs0 ∧
     (SQLite.init fs0 "/data/app/users.db" goodScript).ranScript = false ∧
     (SQLite.init fs0 "/data/app/users.db" goodScript).err = none) :=
  ⟨by decide, C1_provisioning_idempotent fs0 "/data/app/users.db" goodScript
    (by decide)⟩

/-- C10: `fetchall` and `fetchone` never commit and never roll back — for any
connection state, query and parameters, on success and on error alike, both
read operations leave the committed state and the pending transaction view
exactly as they found them (so inserts staged with `auto_commit=False` remain
pending, neither persisted nor discarded, across any number of reads). -/
theorem C10_reads_preserve_transaction_state (c : Conn) (q : Query)
    (ps : List Value) :
    (SQLite.fetchall c q ps).1.committed = c.committed ∧
    (SQLite.fetchall c q ps).1.pending = c.pending ∧
    (SQLite.fetchone c q ps).1.committed = c.committed ∧
    (SQLite.fetchone c q ps).1.pending = c.pending := by
  by_cases hc : c.closed = true
  · simp [SQLite.fetchall, SQLite.fetchone, withCursor, Conn.cursor, hc]
  · have hc' : c.closed = false := by simpa using hc
    cases hq : runQuery q ps c.pending <;>
      simp [SQLite.fetchall, SQLite.fetchone, withCursor, Conn.cursor,
        Conn.executeQuery, Conn.closeCursor, hc', hq]

/-- C9: `fetchone` returns either the single (first) matching row as
`some row`, or — when the query matched no row — the explicit no-row signal
`none` (Python `None`), and that signal is distinct from `some row` for every
possible row, in particular from a row of all-null values. -/
theorem C9_fetchone_no_row_signal (c : Conn) (q : Query) (ps : List Value)
    (hc : c.closed = false) :
    (∀ rows, runQuery q ps c.pending = .ok rows →
      (SQLite.fetchone c q ps).2 = .ok rows.head?) ∧
    (runQuery q ps c.pending = .ok [] →
      (SQLite.fetchone c q ps).2 = .ok none) ∧
    (∀ row : Row,
      (Except.ok (some row) : Except SqlError (Option Row)) ≠ .ok none) := by
  have hgen : ∀ rows, runQuery q ps c.pending = .ok rows →
      (SQLite.fetchone c q ps).2 = .ok rows.head? := by
    intro rows hq
    simp [SQLite.fetchone, withCursor, Conn.cursor, Conn.executeQuery, hc, hq]
  refine ⟨hgen, ?_, ?_⟩
  · intro hq
    simpa using hgen [] hq
  · intro row
    simp

theorem C9_fetchone_no_row_signal_witness :
    conn0.closed = false ∧
    ((∀ rows, runQuery (Query.selectAll "users") [] conn0.pending = .ok rows →
      (SQLite.fetchone conn0 (Query.selectAll "users") []).2 = .ok rows.head?) ∧
    (runQuery (Query.selectAll "users") [] conn0.pending = .ok [] →
      (SQLite.fetchone conn0 (Query.selectAll "users") []).2 = .ok none) ∧
    (∀ row : Row,
      (Except.ok (some row) : Except SqlError (Option Row)) ≠ .ok none)) :=
  ⟨rfl, C9_fetchone_no_row_signal conn0 (Query.selectAll "users") [] rfl⟩

theorem execute_script_openCursors (c : Conn) (s : Script) :
    (SQLite.execute_script c s).1.openCursors = c.openCursors := by
  by_cases hc : c.closed = true
  · simp [SQLite.execute_script, tryRollback, withCursor, Conn.cursor,
      Conn.rollback, hc]
  · rw [execute_script_run c s (by simpa using hc)]

theorem create_table_openCursors (c : Conn) (tbl : String)
    (cols : List (String × String)) :
    (SQLite.create_table c tbl cols).1.openCursors = c.openCursors := by
  by_cases hc : c.closed = true
  · simp [SQLite.create_table, tryRollback, withCursor, Conn.cursor,
      Conn.rollback, hc]
  · simp only [SQLite.create_table]
    rw [stmtCommit_run _ _ _ (by simpa using hc)]
    cases hsem : createTableSem tbl cols c.pending <;> simp [hsem]

theorem insert_one_openCursors (c : Conn) (tbl : String) (cols : List String)
    (vals : List Value) (ac : Bool) :
    (SQLite.insert_one c tbl cols vals ac).1.openCursors = c.openCursors := by
  by_cases hc : c.closed = true
  · simp [SQLite.insert_one, tryRollback, withCursor, Conn.cursor,
      Conn.rollback, hc]
  · simp only [SQLite.insert_one]
    rw [insertShape_run _ _ _ _ (by simpa using hc)]
    cases hsem : insertSem tbl cols vals c.pending <;> cases ac <;> simp [hsem]

theorem delete_one_openCursors (c : Conn) (tbl col : String) (v : Value) :
    (SQLite.delete_one c tbl col v).1.openCursors = c.openCursors := by
  by_cases hc : c.closed = true
  · simp [SQLite.delete_one, tryRollback, withCursor, Conn.cursor,
      Conn.rollback, hc]
  · simp only [SQLite.delete_one]
    rw [stmtCommit_run _ _ _ (by simpa using hc)]
    cases hsem : deleteSem tbl col v c.pending <;> simp [hsem]

theorem update_column_openCursors (c : Conn) (tbl col condCol : String)
    (newV condV : Value) :
    (SQLite.update_column c tbl col newV condCol condV).1.openCursors =
      c.openCursors := by
  by_cases hc : c.closed = true
  · simp [SQLite.update_column, tryRollback, withCursor, Conn.cursor,
      Conn.rollback, hc]
  · simp only [SQLite.update_column]
    rw [stmtCommit_run _ _ _ (by simpa using hc)]
    cases hsem : updateSem tbl col newV condCol condV c.pending <;> simp [hsem]

theorem fetchall_openCursors (c : Conn) (q : Query) (ps : List Value) :
    (SQLite.fetchall c q ps).1.openCursors = c.openCursors := by
  by_cases hc : c.closed = true
  · simp [SQLite.fetchall, withCursor, Conn.cursor, hc]
  · cases hq : runQuery q ps c.pending <;>
      simp [SQLite.fetchall, withCursor, Conn.cursor, Conn.executeQuery,
        Conn.closeCursor, hc, hq]

theorem fetchone_openCursors (c : Conn) (q : Query) (ps : List Value) :
    (SQLite.fetchone c q ps).1.openCursors = c.openCursors := by
  by_cases hc : c.closed = true
  · simp [SQLite.fetchone, withCursor, Conn.cursor, hc]
  · cases hq : runQuery q ps c.pending <;>
      simp [SQLite.fetchone, withCursor, Conn.cursor, Conn.executeQuery,
        Conn.closeCursor, hc, hq]

/-- C3: every public operation on the executor closes its scoped cursor on
every exit path: after any of the seven operations — whatever the arguments,
the connection state (open or closed) and the outcome (success or engine
error) — the number of open cursors is exactly what it was before the
call. -/
theorem C3_cursor_released_on_all_paths (c : Conn) (script : Script)
    (tbl col condCol : String) (cols : List (String × String))
    (icols : List String) (vals : List Value) (ac : Bool)
    (newV condV v : Value) (q : Query) (ps : List Value) :
    (SQLite.execute_script c script).1.openCursors = c.openCursors ∧
    (SQLite.create_table c tbl cols).1.openCursors = c.openCursors ∧
    (SQLite.insert_one c tbl icols vals ac).1.openCursors = c.openCursors ∧
    (SQLite.delete_one c tbl col v).1.openCursors = c.openCursors ∧
    (SQLite.update_column c tbl col newV condCol condV).1.openCursors = c.openCursors ∧
    (SQLite.fetchall c q ps).1.openCursors = c.openCursors ∧
    (SQLite.fetchone c q ps).1.openCursors = c.openCursors :=
  ⟨execute_script_openCursors c script, create_table_openCursors c tbl cols,
    insert_one_openCursors c tbl icols vals ac,
    delete_one_openCursors c tbl col v,
    update_column_openCursors c tbl col condCol newV condV,
    fetchall_openCursors c q ps, fetchone_openCursors c q ps⟩

/-- C6 (amended): after `close()` every subsequent operation fails, but with
the engine's closed-database `ProgrammingError` — raised by
`connection.cursor()` (and, for the mutating operations, again by the
rollback the `except` clause attempts) — not with a layer-level
`ExecutorClosed`, which the source never defines; no statement is issued to
the engine and the connection state is returned untouched. -/
theorem C6_operations_after_close_fail (c : Conn) (script : Script)
    (tbl col condCol : String) (cols : List (String × String))
    (icols : List String) (vals : List Value) (ac : Bool)
    (newV condV v : Value) (q : Query) (ps : List Value) :
    SQLite.execute_script (SQLite.close c) script =
      (SQLite.close c, .error .programmingClosed) ∧
    SQLite.create_table (SQLite.close c) tbl cols =
      (SQLite.close c, .error .programmingClosed) ∧
    SQLite.insert_one (SQLite.close c) tbl icols vals ac =
      (SQLite.close c, .error .programmingClosed) ∧
    SQLite.delete_one (SQLite.close c) tbl col v =
      (SQLite.close c, .error .programmingClosed) ∧
    SQLite.update_column (SQLite.close c) tbl col newV condCol condV =
      (SQLite.close c, .error .programmingClosed) ∧
    SQLite.fetchall (SQLite.close c) q ps =
      (SQLite.close c, .error .programmingClosed) ∧
    SQLite.fetchone (SQLite.close c) q ps =
      (SQLite.close c, .error .programmingClosed) := by
  refine ⟨?_, ?_, ?_, ?_, ?_, ?_, ?_⟩ <;>
    simp [SQLite.close, SQLite.execute_script, SQLite.create_table,
      SQLite.insert_one, SQLite.delete_one, SQLite.update_column,
      SQLite.fetchall, SQLite.fetchone, tryRollback, withCursor, Conn.cursor,
      Conn.rollback]

/-- C6 counterexample: after `close()`, a `fetchall` fails with the sqlite3
closed-database `ProgrammingError`, which is not the spec's `ExecutorClosed`
(no such error exists in the source); no statement reaches the engine. -/
theorem C6_counterexample :
    (SQLite.fetchall (SQLite.close conn0) (Query.selectAll "users") []).2 =
      .error .programmingClosed ∧
    (SQLite.fetchall (SQLite.close conn0) (Query.selectAll "users") []).2 ≠
      .error .executorClosed ∧
    (SQLite.fetchall (SQLite.close conn0) (Query.selectAll "users") []).1.issued
      = [] := by
  decide

/-- C2 (amended): for the four single-statement mutating operations
(`create_table`, `insert_one`, `delete_one`, `update_column`) on an open
connection, an engine error makes the operation roll back the transaction
before the error propagates — afterwards the pending view equals the
committed state, and the committed state is exactly the one from before the
call, so no partial effect of the failing statement is visible (a failing
insert leaves the row count unchanged).  `execute_script` does *not* have
this property: `cursor.executescript` implicitly commits any pending
transaction and then runs the script's statements one at a time in
autocommit mode, so when a script fails, the already-executed prefix (and
any previously staged transaction) remains durably committed and the
`except` clause's rollback is a no-op — afterwards pending and committed
both equal the failing script's prefix result.  The read operations
`fetchall`/`fetchone`, which the claim also covered, have no `try`/`except`
and propagate errors without rolling back.  See the counterexample for both
refutations. -/
theorem C2_mutating_ops_roll_back_on_error (c : Conn) (script : Script)
    (tbl col condCol : String) (cols : List (String × String))
    (icols : List String) (vals : List Value) (ac : Bool)
    (newV condV v : Value) (hc : c.closed = false) :
    (∀ c' e, SQLite.execute_script c script = (c', .error e) →
      c'.pending = c'.committed ∧
      c'.committed = (runStmts script.stmts c.pending).1) ∧
    (∀ c' e, SQLite.create_table c tbl cols = (c', .error e) →
      c'.pending = c'.committed ∧ c'.committed = c.committed) ∧
    (∀ c' e, SQLite.insert_one c tbl icols vals ac = (c', .error e) →
      c'.pending = c'.committed ∧ c'.committed = c.committed) ∧
    (∀ c' e, SQLite.delete_one c tbl col v = (c', .error e) →
      c'.pending = c'.committed ∧ c'.committed = c.committed) ∧
    (∀ c' e, SQLite.update_column c tbl col newV condCol condV = (c', .error e) →
      c'.pending = c'.committed ∧ c'.committed = c.committed) := by
  refine ⟨?_, ?_, ?_, ?_, ?_⟩
  · intro c' e hEq
    rw [execute_script_run c script hc] at hEq
    cases hr : (runStmts script.stmts c.pending).2
    · rw [hr] at hEq
      simp at hEq
    · rw [hr] at hEq
      simp only [Prod.mk.injEq] at hEq
      obtain ⟨h1, -⟩ := hEq
      subst h1
      exact ⟨rfl, rfl⟩
  · intro c' e hEq
    simp only [SQLite.create_table] at hEq
    rw [stmtCommit_run _ _ _ hc] at hEq
    cases hsem : createTableSem tbl cols c.pending <;> rw [hsem] at hEq
    · simp only [Prod.mk.injEq] at hEq
      obtain ⟨h1, -⟩ := hEq
      subst h1
      exact ⟨rfl, rfl⟩
    · simp at hEq
  · intro c' e hEq
    simp only [SQLite.insert_one] at hEq
    rw [insertShape_run _ _ _ _ hc] at hEq
    cases hsem : insertSem tbl icols vals c.pending <;> rw [hsem] at hEq
    · simp only [Prod.mk.injEq] at hEq
      obtain ⟨h1, -⟩ := hEq
      subst h1
      exact ⟨rfl, rfl⟩
    · cases ac <;> simp at hEq
  · intro c' e hEq
    simp only [SQLite.delete_one] at hEq
    rw [stmtCommit_run _ _ _ hc] at hEq
    cases hsem : deleteSem tbl col v c.pending <;> rw [hsem] at hEq
    · simp only [Prod.mk.injEq] at hEq
      obtain ⟨h1, -⟩ := hEq
      subst h1
      exact ⟨rfl, rfl⟩
    · simp at hEq
  · intro c' e hEq
    simp only [SQLite.update_column] at hEq
    rw [stmtCommit_run _ _ _ hc] at hEq
    cases hsem : updateSem tbl col newV condCol condV c.pending <;>
      rw [hsem] at hEq
    · simp only [Prod.mk.injEq] at hEq
      obtain ⟨h1, -⟩ := hEq
      subst h1
      exact ⟨rfl, rfl⟩
    · simp at hEq

theorem C2_mutating_ops_roll_back_on_error_witness :
    stagedConn.closed = false ∧
    ((∀ c' e, SQLite.execute_script stagedConn badScript = (c', .error e) →
      c'.pending = c'.committed ∧
      c'.committed = (runStmts badScript.stmts stagedConn.pending).1) ∧
    (∀ c' e, SQLite.create_table stagedConn "users" [("id", "INTEGER")] = (c', .error e) →
      c'.pending = c'.committed ∧ c'.committed = stagedConn.committed) ∧
    (∀ c' e, SQLite.insert_one stagedConn "users" ["name"] [] true = (c', .error e) →
      c'.pending = c'.committed ∧ c'.committed = stagedConn.committed) ∧
    (∀ c' e, SQLite.delete_one stagedConn "users" "name" (Value.textV "Alice") = (c', .error e) →
      c'.pending = c'.committed ∧ c'.committed = stagedConn.committed) ∧
    (∀ c' e, SQLite.update_column stagedConn "users" "name" (Value.textV "Bob") "age" (Value.intV 30) = (c', .error e) →
      c'.pending = c'.committed ∧ c'.committed = stagedConn.committed)) :=
  ⟨rfl, C2_mutating_ops_roll_back_on_error stagedConn badScript "users" "name"
    "age" [("id", "INTEGER")] ["name"] [] true (Value.textV "Bob")
    (Value.intV 30) (Value.textV "Alice") rfl⟩

/-- C2 counterexample: two refutations of the claim as stated.  First, a
failing `fetchall` (unknown table, with an uncommitted insert staged on the
connection) propagates the engine error without rolling back — the staged
transaction survives, pending ≠ committed before and after the call.
Second, a failing `execute_script` does not roll back either:
`cursor.executescript` implicitly commits the staged transaction before the
script runs (the staged row becomes durable although the call fails), and a
script failing at its second statement leaves its first statement's row
durably committed — a partial effect of the failing script remains
visible. -/
theorem C2_counterexample :
    (SQLite.fetchall stagedConn (Query.selectAll "nosuch") []).2 =
      .error (.databaseError "no such table: nosuch") ∧
    (SQLite.fetchall stagedConn (Query.selectAll "nosuch") []).1.pending =
      stagedConn.pending ∧
    (SQLite.fetchall stagedConn (Query.selectAll "nosuch") []).1.committed =
      stagedConn.committed ∧
    stagedConn.pending ≠ stagedConn.committed ∧
    (SQLite.execute_script stagedConn badScript).2 =
      .error (.databaseError "SQL script error") ∧
    (SQLite.execute_script stagedConn badScript).1.committed =
      stagedConn.pending ∧
    (SQLite.execute_script conn0 partialScript).2 =
      .error (.databaseError "SQL script error") ∧
    (SQLite.execute_script conn0 partialScript).1.committed =
      [⟨"users", ["name", "age"], [(1, [Value.textV "Bob", Value.intV 1])], 2⟩] ∧
    conn0.committed ≠
      [⟨"users", ["name", "age"], [(1, [Value.textV "Bob", Value.intV 1])], 2⟩] := by
  decide

/-- C5 (amended): `insert_one` performs no pre-engine length check.  With
`columns.length ≠ values.length` (and an existing table) it builds the INSERT
statement with one `?` placeholder per *value*, issues it to the engine, and
the engine rejects it at prepare time with a `DatabaseError`
(`N values for M columns`); the transaction is then rolled back.  No
`ParameterCountMismatch` error exists in the source and none is raised. -/
theorem C5_length_mismatch_reaches_engine (c : Conn) (tbl : String) (t : Table)
    (cols : List String) (vals : List Value) (ac : Bool)
    (hc : c.closed = false) (ht : c.pending.getTable tbl = some t)
    (hlen : vals.length ≠ cols.length) :
    (SQLite.insert_one c tbl cols vals ac).2 =
      .error (.databaseError (toString vals.length ++ " values for " ++
        toString cols.length ++ " columns")) ∧
    (SQLite.insert_one c tbl cols vals ac).1.issued = c.issued ++
      ["INSERT INTO " ++ tbl ++ " (" ++ String.intercalate ", " cols ++
        ") VALUES (" ++ String.intercalate ", " (List.replicate vals.length "?") ++ ")"] ∧
    (SQLite.insert_one c tbl cols vals ac).2 ≠ .error .parameterCountMismatch ∧
    (SQLite.insert_one c tbl cols vals ac).1.pending = c.committed := by
  have hsem : insertSem tbl cols vals c.pending =
      .error (toString vals.length ++ " values for " ++
        toString cols.length ++ " columns") := by
    simp [insertSem, ht, hlen]
  simp only [SQLite.insert_one]
  rw [insertShape_run _ _ _ _ hc, hsem]
  simp

theorem C5_length_mismatch_reaches_engine_witness :
    conn0.closed = false ∧
    conn0.pending.getTable "users" = some usersTable ∧
    ([Value.textV "Alice"].length ≠ ["name", "age"].length) ∧
    ((SQLite.insert_one conn0 "users" ["name", "age"] [Value.textV "Alice"] true).2 =
      .error (.databaseError (toString [Value.textV "Alice"].length ++
        " values for " ++ toString ["name", "age"].length ++ " columns")) ∧
    (SQLite.insert_one conn0 "users" ["name", "age"] [Value.textV "Alice"] true).1.issued =
      conn0.issued ++ ["INSERT INTO " ++ "users" ++ " (" ++
        String.intercalate ", " ["name", "age"] ++ ") VALUES (" ++
        String.intercalate ", " (List.replicate [Value.textV "Alice"].length "?") ++ ")"] ∧
    (SQLite.insert_one conn0 "users" ["name", "age"] [Value.textV "Alice"] true).2 ≠
      .error .parameterCountMismatch ∧
    (SQLite.insert_one conn0 "users" ["name", "age"] [Value.textV "Alice"] true).1.pending =
      conn0.committed) :=
  ⟨rfl, by decide, by decide,
    C5_length_mismatch_reaches_engine conn0 "users" usersTable ["name", "age"]
      [Value.textV "Alice"] true rfl (by decide) (by decide)⟩

/-- C5 counterexample: `insert_one` with two columns and one value *does*
issue the INSERT statement to the engine (it appears in the issued-statement
trace) and fails with the engine's `DatabaseError`, not with a pre-engine
`ParameterCountMismatch` — refuting the claim that the call fails before any
statement is issued. -/
theorem C5_counterexample :
    (SQLite.insert_one conn0 "users" ["name", "age"] [Value.textV "Alice"] true).1.issued =
      ["INSERT INTO users (name, age) VALUES (?)"] ∧
    (SQLite.insert_one conn0 "users" ["name", "age"] [Value.textV "Alice"] true).2 =
      .error (.databaseError "1 values for 2 columns") ∧
    (SQLite.insert_one conn0 "users" ["name", "age"] [Value.textV "Alice"] true).2 ≠
      .error .parameterCountMismatch := by
  decide

/-- C8: with `auto_commit=False`, `insert_one` executes the INSERT against
the engine (the statement is issued and the pending view gains the row) but
does not commit — the committed state is unchanged until a later
`connection.commit()` makes the staged insert durable; with
`auto_commit=True` (the source's default) the insert is committed before the
call returns. -/
theorem C8_auto_commit_staging (c : Conn) (tbl : String) (cols : List String)
    (vals : List Value) (db : Database) (hc : c.closed = false)
    (hsem : insertSem tbl cols vals c.pending = .ok db) :
    (SQLite.insert_one c tbl cols vals false).2 = .ok () ∧
    (SQLite.insert_one c tbl cols vals false).1.issued =
      c.issued ++ ["INSERT INTO " ++ tbl ++ " (" ++ String.intercalate ", " cols ++
        ") VALUES (" ++ String.intercalate ", " (List.replicate vals.length "?") ++ ")"] ∧
    (SQLite.insert_one c tbl cols vals false).1.pending = db ∧
    (SQLite.insert_one c tbl cols vals false).1.committed = c.committed ∧
    ((SQLite.insert_one c tbl cols vals false).1.commit).1.committed = db ∧
    (SQLite.insert_one c tbl cols vals true).2 = .ok () ∧
    (SQLite.insert_one c tbl cols vals true).1.committed = db ∧
    (SQLite.insert_one c tbl cols vals true).1.pending = db := by
  simp [SQLite.insert_one, tryRollback, withCursor, Conn.cursor, Conn.execute,
    Conn.closeCursor, Conn.commit, Conn.rollback, hc, hsem]

theorem C8_auto_commit_staging_witness :
    conn0.closed = false ∧
    insertSem "users" ["name", "age"] [Value.textV "Alice", Value.intV 30]
      conn0.pending =
      .ok [⟨"users", ["name", "age"],
        [(1, [Value.textV "Alice", Value.intV 30])], 2⟩] ∧
    ((SQLite.insert_one conn0 "users" ["name", "age"]
        [Value.textV "Alice", Value.intV 30] false).2 = .ok () ∧
    (SQLite.insert_one conn0 "users" ["name", "age"]
        [Value.textV "Alice", Value.intV 30] false).1.issued =
      conn0.issued ++ ["INSERT INTO " ++ "users" ++ " (" ++
        String.intercalate ", " ["name", "age"] ++ ") VALUES (" ++
        String.intercalate ", "
          (List.replicate [Value.textV "Alice", Value.intV 30].length "?") ++ ")"] ∧
    (SQLite.insert_one conn0 "users" ["name", "age"]
        [Value.textV "Alice", Value.intV 30] false).1.pending =
      [⟨"users", ["name", "age"], [(1, [Value.textV "Alice", Value.intV 30])], 2⟩] ∧
    (SQLite.insert_one conn0 "users" ["name", "age"]
        [Value.textV "Alice", Value.intV 30] false).1.committed = conn0.committed ∧
    ((SQLite.insert_one conn0 "users" ["name", "age"]
        [Value.textV "Alice", Value.intV 30] false).1.commit).1.committed =
      [⟨"users", ["name", "age"], [(1, [Value.textV "Alice", Value.intV 30])], 2⟩] ∧
    (SQLite.insert_one conn0 "users" ["name", "age"]
        [Value.textV "Alice", Value.intV 30] true).2 = .ok () ∧
    (SQLite.insert_one conn0 "users" ["name", "age"]
        [Value.textV "Alice", Value.intV 30] true).1.committed =
      [⟨"users", ["name", "age"], [(1, [Value.textV "Alice", Value.intV 30])], 2⟩] ∧
    (SQLite.insert_one conn0 "users" ["name", "age"]
        [Value.textV "Alice", Value.intV 30] true).1.pending =
      [⟨"users", ["name", "age"], [(1, [Value.textV "Alice", Value.intV 30])], 2⟩]) :=
  ⟨rfl, by decide,
    C8_auto_commit_staging conn0 "users" ["name", "age"]
      [Value.textV "Alice", Value.intV 30]
      [⟨"users", ["name", "age"], [(1, [Value.textV "Alice", Value.intV 30])], 2⟩]
      rfl (by decide)⟩

/-- C7: round-trip — inserting a row with `insert_one` over the table's full
column list and then selecting that row by its key (the rowid the engine
assigned to it) with `fetchone` returns exactly the inserted values, in the
same column order. -/
theorem C7_insert_fetchone_round_trip (c : Conn) (t : Table) (tbl : String)
    (cols : List String) (vals : List Value)
    (hc : c.closed = false) (ht : c.pending.getTable tbl = some t)
    (hcols : t.cols = cols) (hnd : cols.Nodup)
    (hlen : vals.length = cols.length)
    (hfresh : ∀ p ∈ t.rows, p.1 ≠ t.nextId) :
    (SQLite.insert_one c tbl cols vals true).2 = .ok () ∧
    (SQLite.fetchone (SQLite.insert_one c tbl cols vals true).1
      (Query.selectByRowid tbl) [Value.intV (t.nextId : Int)]).2 =
      .ok (some vals) := by
  have hmem : ∀ x ∈ cols, x ∈ t.cols := by
    intro x hx
    rw [hcols]
    exact hx
  have hrow : t.cols.map
      (fun cc => (((cols.zip vals).lookup cc)).getD Value.nullV) = vals := by
    rw [hcols]
    exact map_lookup_zip cols vals hnd hlen
  have hsem : insertSem tbl cols vals c.pending = .ok
      (c.pending.modifyTable tbl (fun tt =>
        { tt with rows := tt.rows ++ [(tt.nextId, vals)],
                  nextId := tt.nextId + 1 })) := by
    simp [insertSem, ht, hlen, hrow]
    exact hmem
  have hins : SQLite.insert_one c tbl cols vals true =
      ({ c with
          issued := c.issued ++ ["INSERT INTO " ++ tbl ++ " (" ++
            String.intercalate ", " cols ++ ") VALUES (" ++
            String.intercalate ", " (List.replicate vals.length "?") ++ ")"],
          pending := c.pending.modifyTable tbl (fun tt =>
            { tt with rows := tt.rows ++ [(tt.nextId, vals)],
                      nextId := tt.nextId + 1 }),
          committed := c.pending.modifyTable tbl (fun tt =>
            { tt with rows := tt.rows ++ [(tt.nextId, vals)],
                      nextId := tt.nextId + 1 }) }, .ok ()) := by
    simp [SQLite.insert_one, tryRollback, withCursor, Conn.cursor, Conn.execute,
      Conn.closeCursor, Conn.commit, Conn.rollback, hc, hsem]
  have hget : (c.pending.modifyTable tbl (fun tt =>
      { tt with rows := tt.rows ++ [(tt.nextId, vals)],
                nextId := tt.nextId + 1 })).getTable tbl =
      some { t with rows := t.rows ++ [(t.nextId, vals)],
                    nextId := t.nextId + 1 } := by
    rw [getTable_modifyTable c.pending tbl
      (fun tt => { tt with rows := tt.rows ++ [(tt.nextId, vals)],
                           nextId := tt.nextId + 1 }) (fun tt => rfl), ht]
    rfl
  rw [hins]
  refine ⟨rfl, ?_⟩
  simp [SQLite.fetchone, withCursor, Conn.cursor, Conn.executeQuery,
    Conn.closeCursor, runQuery, hget, hc]
  exact Or.inr (fun a b hab => hfresh (a, b) hab)

theorem C7_insert_fetchone_round_trip_witness :
    conn0.closed = false ∧
    conn0.pending.getTable "users" = some usersTable ∧
    usersTable.cols = ["name", "age"] ∧
    (["name", "age"] : List String).Nodup ∧
    ([Value.textV "Alice", Value.intV 30].length =
      (["name", "age"] : List String).length) ∧
    (∀ p ∈ usersTable.rows, p.1 ≠ usersTable.nextId) ∧
    ((SQLite.insert_one conn0 "users" ["name", "age"]
        [Value.textV "Alice", Value.intV 30] true).2 = .ok () ∧
     (SQLite.fetchone
        (SQLite.insert_one conn0 "users" ["name", "age"]
          [Value.textV "Alice", Value.intV 30] true).1
        (Query.selectByRowid "users")
        [Value.intV (usersTable.nextId : Int)]).2 =
        .ok (some [Value.textV "Alice", Value.intV 30])) :=
  ⟨rfl, by decide, by decide, by decide, by decide, by decide,
    C7_insert_fetchone_round_trip conn0 usersTable "users" ["name", "age"]
      [Value.textV "Alice", Value.intV 30] rfl (by decide) (by decide)
      (by decide) (by decide) (by decide)⟩

/-- C4 (code bug): the code violates the claim.  When no file exists at the
store location and the initialization script is invalid SQL,
`sqlite3.connect` has already created the database file before
`initialize_db` runs, and nothing removes or marks it when `execute_script`
raises: construction fails, yet an empty database file remains at the store
location, and a second construction's `exists()` check then treats the store
as already provisioned — it runs no script and reports no error, leaving the
schema permanently uninitialized. -/
theorem C4_failed_init_leaves_provisioned_looking_file
    (fs : FS) (path : String) (script : Script) (m : String)
    (h : fs.pathExists path = false)
    (hv : runStmts script.stmts [] = ([], some m)) :
    (SQLite.init fs path script).err = some (.databaseError m) ∧
    (SQLite.init fs path script).fs.files.lookup path = some [] ∧
    (SQLite.init (SQLite.init fs path script).fs path script).ranScript = false ∧
    (SQLite.init (SQLite.init fs path script).fs path script).err = none := by
  have hl : fs.files.lookup path = none := by
    cases hcase : fs.files.lookup path with
    | none => rfl
    | some db => simp [FS.pathExists, hcase] at h
  have hrun := execute_script_run ⟨[], [], 0, false, []⟩ script rfl
  simp only [hv] at hrun
  have hinit : SQLite.init fs path script =
      ⟨(fs.write path []).write path [], none, true,
        some (.databaseError m)⟩ := by
    simp [SQLite.init, FS.pathExists, hl, sqlite3_connect, hrun]
  refine ⟨?_, ?_, ?_, ?_⟩
  · rw [hinit]
  · rw [hinit]
    exact FS.lookup_write _ path []
  · rw [hinit]
    exact (init_of_pathExists _ path script (FS.pathExists_write _ path [])).2.1
  · rw [hinit]
    exact (init_of_pathExists _ path script (FS.pathExists_write _ path [])).2.2

theorem C4_failed_init_leaves_provisioned_looking_file_witness :
    fsEmpty.pathExists "/data/app/users.db" = false ∧
    runStmts badScript.stmts [] = ([], some "SQL script error") ∧
    ((SQLite.init fsEmpty "/data/app/users.db" badScript).err =
      some (.databaseError "SQL script error") ∧
    (SQLite.init fsEmpty "/data/app/users.db" badScript).fs.files.lookup
      "/data/app/users.db" = some [] ∧
    (SQLite.init (SQLite.init fsEmpty "/data/app/users.db" badScript).fs
      "/data/app/users.db" badScript).ranScript = false ∧
    (SQLite.init (SQLite.init fsEmpty "/data/app/users.db" badScript).fs
      "/data/app/users.db" badScript).err = none) :=
  ⟨by decide, by decide,
    C4_failed_init_leaves_provisioned_looking_file fsEmpty "/data/app/users.db"
      badScript "SQL script error" (by decide) (by decide)⟩
